import Mathlib

/-!
Verification of the `useDontLeave` React hook (src/src/useDontLeave.js).

The hook is shallowly embedded as an executable state machine.  JS numbers
(viewport width, scroll offsets, thresholds, delays) are modelled as
rationals; JS `x || d` default fallbacks on numbers are modelled as
"`d` when `x = 0`" (`0` is the only falsy rational here); the session
store is an association list behind an `Option` (`none` models
`sessionStorage === undefined`, so that `sessionStorage?.m(...)`
short-circuits).  React semantics are modelled faithfully for the
single-threaded, cooperative event model: every delivered event runs the
attached DOM listeners (each listener is the closure created by the
effect run that registered it, capturing that render's state), state
updates are committed (dropped when the component is unmounted), and then
the `useEffect` is flushed: while the dependency snapshot differs from
the current state, the previous run's cleanup (when that run returned
one — the early-return path returns none) is executed and the effect
body re-runs.  Timers are a set of pending (handle, title) pairs; a
`timer` event fires a pending timer; no real time is modelled, only the
order of events.
-/

namespace UseDontLeave

/-- Mirrors `options.triggerScroll` of the source. -/
structure ScrollCfg where
  mobile : Bool
  desktop : Bool
  percentThreshold : ℚ
deriving DecidableEq

/-- Mirrors `options.triggerTabChange` of the source. -/
structure TabCfg where
  mobile : Bool
  desktop : Bool
  delay : ℚ
  title : String
deriving DecidableEq

/-- Mirrors a fully-populated `options` object of the source. -/
structure Options where
  mobileWidthThreshold : ℚ
  triggerScroll : ScrollCfg
  triggerMouseMove : Bool
  triggerTabChange : TabCfg
  storeInUserSession : Bool
deriving DecidableEq

/-- The default `options` object of the source (the default parameter of
`useDontLeave`, applied only when `options` is omitted entirely). -/
def defaultOptions : Options :=
  { mobileWidthThreshold := 768
    triggerScroll := { mobile := true, desktop := false, percentThreshold := 30 }
    triggerMouseMove := true
    triggerTabChange := { mobile := false, desktop := true, delay := 200, title := "We miss you!" }
    storeInUserSession := true }

/-- `SESSION_STORAGE_CTA_KEY` of the source. -/
def SESSION_STORAGE_CTA_KEY : String := "useDontLeave"

/-- JS truthiness of a possibly-absent string (`getItem` returns
`null`/a string; only a non-empty string is truthy). -/
def truthyStr : Option String → Bool
  | none => false
  | some s => s != ""

/-- `t || 768`: a zero (falsy) threshold falls back to the default. -/
def effWidthThreshold (t : ℚ) : ℚ := if t = 0 then 768 else t

/-- `p || 30`: a zero (falsy) percent threshold falls back to 30. -/
def effPercentThreshold (p : ℚ) : ℚ := if p = 0 then 30 else p

/-- `s || 'We miss you!'`: an empty (falsy) flash title falls back. -/
def effFlashTitle (s : String) : String := if s = "" then "We miss you!" else s

/-- `window.innerWidth > (options.mobileWidthThreshold || 768)` — the
classification computed in `handleVisibilityChange` and
`handleMouseMove` (and, negated via `<=`, in `handleScroll`). -/
def isDesktopAt (width t : ℚ) : Bool := decide (width > effWidthThreshold t)

/-- Host environment state: document, window, session store, pending
timers, and an instrumentation counter for `onTrigger` invocations of
the current hook instance. -/
structure Host where
  title : String
  hidden : Bool
  width : ℚ
  scrollY : ℚ
  scrollHeight : ℚ
  innerHeight : ℚ
  session : Option (List (String × String))
  pending : List (Nat × String)
  nextHandle : Nat
  calls : Nat
deriving DecidableEq

/-- `sessionStorage?.getItem(k)` (`none` both when the store is absent
and when the key is missing; both are falsy). -/
def sessionGet (h : Host) (k : String) : Option String :=
  match h.session with
  | none => none
  | some l => l.lookup k

/-- `sessionStorage?.setItem(k, v)` (a no-op when the store is absent). -/
def sessionSet (h : Host) (k v : String) : Host :=
  match h.session with
  | none => h
  | some l => { h with session := some ((k, v) :: l.filter (fun p => p.1 != k)) }

/-- The three `useState` cells of the hook. -/
structure ReactState where
  hasTriggered : Bool
  originalTitle : String
  timeoutId : Option Nat
deriving DecidableEq

/-- The state captured by one effect run's `handleVisibilityChange`
closure (the only handler that reads mutable state). -/
structure VisClosure where
  timeoutId : Option Nat
  originalTitle : String
deriving DecidableEq

/-- One hook instance wired to a host: React state, the attached
visibility-listener closures (in registration order — more than one can
be attached because the effect's early-return path returns no cleanup),
the pointer/scroll attachment flags, whether the current effect run
returned a cleanup, and the dependency snapshot of the last run. -/
structure Runtime where
  opts : Options
  host : Host
  react : ReactState
  visListeners : List VisClosure
  mmAttached : Bool
  scAttached : Bool
  curHasCleanup : Bool
  lastDeps : Option ReactState
  mounted : Bool
deriving DecidableEq

/-- The effect cleanup (lines 141–149 of the source): removes the
pointer/scroll listeners and the current run's visibility listener.
It runs only when the current run returned a cleanup — the early-return
path (line 80) does not.  The source removes the pointer/scroll
listeners under the same configuration conditions that added them, so
unconditionally clearing the flags is equivalent. -/
def runCleanup (rt : Runtime) : Runtime :=
  if rt.curHasCleanup then
    { rt with
      mmAttached := false
      scAttached := false
      visListeners := rt.visListeners.dropLast
      curHasCleanup := false }
  else rt

/-- One run of the effect body (lines 44–160): capture
`document.title` into `originalTitle`, register the visibility listener
(its closure captures this render's state), then either early-return
(line 80, returning no cleanup) when the gate is already satisfied, or
register the pointer/scroll listeners per configuration and return a
cleanup. -/
def runEffectBody (rt : Runtime) : Runtime :=
  let R := rt.react
  let rt1 : Runtime :=
    { rt with
      visListeners := rt.visListeners ++ [{ timeoutId := R.timeoutId, originalTitle := R.originalTitle }]
      lastDeps := some R
      react := { R with originalTitle := rt.host.title } }
  if R.hasTriggered || (rt.opts.storeInUserSession && truthyStr (sessionGet rt.host SESSION_STORAGE_CTA_KEY)) then
    { rt1 with curHasCleanup := false, mmAttached := false, scAttached := false }
  else
    { rt1 with
      curHasCleanup := true
      mmAttached := rt.opts.triggerMouseMove
      scAttached := rt.opts.triggerScroll.mobile || rt.opts.triggerScroll.desktop }

/-- One step of the effect-flush loop: re-run cleanup and body when the
dependency snapshot differs from the current state. -/
def flushStep (rt : Runtime) : Runtime :=
  if rt.lastDeps = some rt.react then rt else runEffectBody (runCleanup rt)

/-- Flush the effect after an event: the body can trigger one further
re-run (its own `setOriginalTitle`), after which the dependencies are
stable, so two steps reach the fixpoint.  Nothing flushes after
unmount. -/
def flushEffects (rt : Runtime) : Runtime :=
  if rt.mounted then flushStep (flushStep rt) else rt

/-- `handleVisibilityChange` (lines 53–73) as run by one attached
closure `c`: threaded through host state and the (batched) React state.
Ordinary browser timer handles are positive, so the `if (timeoutId)`
truthiness test is modelled by the `Option` match. -/
def visDispatchOne (o : Options) (c : VisClosure) (st : Host × ReactState) : Host × ReactState :=
  let h := st.1
  let r := st.2
  let isDesktop := isDesktopAt h.width o.mobileWidthThreshold
  let cfg := o.triggerTabChange
  if (isDesktop && cfg.desktop) || (!isDesktop && cfg.mobile) then
    if h.hidden then
      let id := h.nextHandle
      ({ h with pending := h.pending ++ [(id, effFlashTitle cfg.title)], nextHandle := id + 1 },
       { r with timeoutId := some id })
    else
      let hr : Host × ReactState :=
        match c.timeoutId with
        | some tid =>
          ({ h with pending := h.pending.filter (fun p => p.1 != tid) },
           { r with timeoutId := none })
        | none => (h, r)
      ({ hr.1 with title := c.originalTitle }, hr.2)
  else (h, r)

/-- A `visibilitychange` event: the document's hidden flag flips to
`hid`, then every attached visibility closure runs in order; the state
updates are dropped when the component is no longer mounted. -/
def dispatchVisibility (rt : Runtime) (hid : Bool) : Runtime :=
  let h0 : Host := { rt.host with hidden := hid }
  let hr := rt.visListeners.foldl (fun st c => visDispatchOne rt.opts c st) (h0, rt.react)
  { rt with host := hr.1, react := if rt.mounted then hr.2 else rt.react }

/-- The firing condition of `handleMouseMove` (lines 87–104): trigger
enabled, desktop width, and the pointer inside the top-left or
top-right hot zone (tolerances 50 and 250). -/
def mouseMoveFires (o : Options) (width x y : ℚ) : Bool :=
  o.triggerMouseMove && isDesktopAt width o.mobileWidthThreshold &&
    ((decide (y ≤ 50) && decide (x ≤ 250)) ||
     (decide (y ≤ 50) && decide (x ≥ width - 250)))

/-- A `mousemove` event: when the listener is attached and the firing
condition holds, `setHasTriggered(true)`, `onTrigger()` (counted in
`calls`), and the session marker write. -/
def dispatchMouseMove (rt : Runtime) (x y : ℚ) : Runtime :=
  if rt.mmAttached && mouseMoveFires rt.opts rt.host.width x y then
    let h1 : Host := { rt.host with calls := rt.host.calls + 1 }
    let h2 : Host := if rt.opts.storeInUserSession then sessionSet h1 SESSION_STORAGE_CTA_KEY "true" else h1
    { rt with
      host := h2
      react := if rt.mounted then { rt.react with hasTriggered := true } else rt.react }
  else rt

/-- The firing condition of `handleScroll` (lines 109–128).
`scrollPercent = scrollTop / docHeight * 100` is an IEEE computation in
the source: when `docHeight = 0` it yields `NaN` (`scrollTop = 0`),
`+Infinity` (`scrollTop > 0`, which passes the `>=` test) or
`-Infinity`; otherwise it is modelled exactly in ℚ. -/
def scrollWouldFire (o : Options) (width scrollTop docHeight : ℚ) : Bool :=
  let isMobile := decide (width ≤ effWidthThreshold o.mobileWidthThreshold)
  let pctOk :=
    if docHeight = 0 then decide (0 < scrollTop)
    else decide (scrollTop / docHeight * 100 ≥ effPercentThreshold o.triggerScroll.percentThreshold)
  ((isMobile && o.triggerScroll.mobile) || (!isMobile && o.triggerScroll.desktop)) && pctOk

/-- A `scroll` event: the window metrics update, and when the listener
is attached and the firing condition holds, the gate fires as in
`dispatchMouseMove`. -/
def dispatchScroll (rt : Runtime) (sy sh ih : ℚ) : Runtime :=
  let h0 : Host := { rt.host with scrollY := sy, scrollHeight := sh, innerHeight := ih }
  let rt0 : Runtime := { rt with host := h0 }
  if rt0.scAttached && scrollWouldFire rt0.opts h0.width sy (sh - ih) then
    let h1 : Host := { rt0.host with calls := rt0.host.calls + 1 }
    let h2 : Host := if rt0.opts.storeInUserSession then sessionSet h1 SESSION_STORAGE_CTA_KEY "true" else h1
    { rt0 with
      host := h2
      react := if rt0.mounted then { rt0.react with hasTriggered := true } else rt0.react }
  else rt0

/-- A pending timer fires: the flash title is applied and the timer is
consumed.  The callback touches no React state. -/
def fireTimer (rt : Runtime) (id : Nat) : Runtime :=
  match rt.host.pending.find? (fun p => p.1 == id) with
  | none => rt
  | some p =>
    { rt with
      host := { rt.host with
        title := p.2
        pending := rt.host.pending.filter (fun q => q.1 != id) } }

/-- Events the host can deliver to a hook instance. -/
inductive Event where
  | visibility (hidden : Bool)
  | mouseMove (x y : ℚ)
  | scroll (scrollY scrollHeight innerHeight : ℚ)
  | timer (id : Nat)
  | setWidth (w : ℚ)
deriving DecidableEq

/-- Deliver one event, then flush the effect. -/
def processEvent (rt : Runtime) (e : Event) : Runtime :=
  let rt1 :=
    match e with
    | .visibility b => dispatchVisibility rt b
    | .mouseMove x y => dispatchMouseMove rt x y
    | .scroll a b c => dispatchScroll rt a b c
    | .timer id => fireTimer rt id
    | .setWidth w => { rt with host := { rt.host with width := w } }
  flushEffects rt1

/-- Deliver a sequence of events. -/
def processEvents (rt : Runtime) (es : List Event) : Runtime :=
  es.foldl processEvent rt

/-- Mount one hook instance on a host: fresh `useState` cells
(`false`, `''`, `null`), no listeners, then the first effect flush.
`calls` counts this instance's `onTrigger` invocations, so it starts at
zero. -/
def mountEngine (o : Options) (h : Host) : Runtime :=
  flushEffects
    { opts := o, host := { h with calls := 0 },
      react := { hasTriggered := false, originalTitle := "", timeoutId := none },
      visListeners := [], mmAttached := false, scAttached := false,
      curHasCleanup := false, lastDeps := none, mounted := true }

/-- Unmount: run the current effect run's cleanup when it returned one
(the early-return path did not), then stop committing state updates and
flushing.  Listeners from a run without cleanup stay attached. -/
def unmountEngine (rt : Runtime) : Runtime :=
  let rt1 := runCleanup rt
  { rt1 with mounted := false, lastDeps := none }

/-- Restriction on an event list used for the amended timer claims: the
document's visibility strictly alternates starting from hidden-state
`cur`, and only visibility and timer events are delivered. -/
def Alternating : Bool → List Event → Prop
  | _, [] => True
  | cur, Event.visibility b :: es => b = !cur ∧ Alternating b es
  | cur, Event.timer _ :: es => Alternating cur es
  | _, _ :: _ => False

/-- A possibly-partial `options` object as JS sees it: an absent field
is `undefined`. -/
structure RawOptions where
  mobileWidthThreshold : Option ℚ
  triggerScroll : Option ScrollCfg
  triggerMouseMove : Option Bool
  triggerTabChange : Option TabCfg
  storeInUserSession : Option Bool
deriving DecidableEq

/-- View a fully-populated options object as a raw one. -/
def toRaw (o : Options) : RawOptions :=
  { mobileWidthThreshold := some o.mobileWidthThreshold
    triggerScroll := some o.triggerScroll
    triggerMouseMove := some o.triggerMouseMove
    triggerTabChange := some o.triggerTabChange
    storeInUserSession := some o.storeInUserSession }

/-- The `options = { ... }` default parameter of `useDontLeave`
(lines 27–36): the documented defaults are substituted only when the
whole `options` argument is omitted; an explicitly supplied object is
used as-is, with no per-field merging. -/
def resolveOptions : Option RawOptions → RawOptions
  | none => toRaw defaultOptions
  | some o => o

/-- The option dereferences of one fresh-activation effect run
(lines 76–139), in source order, on a possibly-partial options object;
`marker` is the truthiness of the session-storage check.
`options.storeInUserSession` (line 79) and `options.triggerMouseMove`
(line 131) tolerate `undefined` (used only as falsy conditions), but
`options.triggerScroll.mobile` (line 136) is an unconditional member
access on a possibly-`undefined` object and raises a `TypeError`. -/
def effectBodyReads (o : RawOptions) (marker : Bool) : Except String Unit :=
  if (o.storeInUserSession.getD false) && marker then Except.ok ()
  else
    match o.triggerScroll with
    | none => Except.error "TypeError: cannot read mobile of undefined"
    | some _ => Except.ok ()

/-- The option dereferences of `handleVisibilityChange` (lines 53–57)
on a possibly-partial options object: an `undefined`
`options.mobileWidthThreshold` is falsy and falls back to 768 exactly
like 0, but `triggerTabChangeConfig.desktop` (line 57) is an
unconditional member access and raises a `TypeError` when
`options.triggerTabChange` is `undefined`. -/
def visibilityReads (o : RawOptions) (width : ℚ) : Except String Bool :=
  let isDesktop := isDesktopAt width ((o.mobileWidthThreshold).getD 0)
  match o.triggerTabChange with
  | none => Except.error "TypeError: cannot read desktop of undefined"
  | some cfg => Except.ok ((isDesktop && cfg.desktop) || (!isDesktop && cfg.mobile))

/-- Session-store behavior at the gate boundary: absent
(`sessionStorage === undefined`, handled by the optional chaining),
raising on access, or available. -/
inductive StoreB where
  | absent
  | throwing
  | avail (data : List (String × String))
deriving DecidableEq

/-- `sessionStorage?.setItem(k, v)` when the store itself may raise:
the optional chaining handles only the absent store; a raising
`setItem` propagates. -/
def setItemB (s : StoreB) (k v : String) : Except String StoreB :=
  match s with
  | .absent => Except.ok .absent
  | .throwing => Except.error "setItem raised"
  | .avail d => Except.ok (.avail ((k, v) :: d.filter (fun p => p.1 != k)))

/-- `handleMouseMove` (lines 87–104) against a possibly-raising store:
returns whether `onTrigger` was invoked, paired with the handler's
outcome.  There is no try/catch in the source, so a raising `setItem`
escapes the handler; `onTrigger()` (line 98) runs before the write
(line 100), so the callback has already fired when the write raises. -/
def handleMouseMoveB (o : Options) (s : StoreB) (width x y : ℚ) : Bool × Except String StoreB :=
  if mouseMoveFires o width x y then
    if o.storeInUserSession then
      (true, setItemB s SESSION_STORAGE_CTA_KEY "true")
    else (true, Except.ok s)
  else (false, Except.ok s)

/-- The gate check of line 79 (`TriggerGate.alreadySatisfied` in the
spec's terms): the in-memory flag, or — with persistence enabled — a
truthy session marker. -/
def alreadySatisfied (rt : Runtime) : Bool :=
  rt.react.hasTriggered ||
    (rt.opts.storeInUserSession && truthyStr (sessionGet rt.host SESSION_STORAGE_CTA_KEY))

/-- Demo configuration for the timer claims: tab-change enabled for
desktop only, scroll triggers off, no session persistence. -/
def demoOpts : Options :=
  { mobileWidthThreshold := 768
    triggerScroll := { mobile := false, desktop := false, percentThreshold := 30 }
    triggerMouseMove := true
    triggerTabChange := { mobile := false, desktop := true, delay := 200, title := "We miss you!" }
    storeInUserSession := false }

/-- Demo host: visible desktop page titled "Original", empty session
store, nothing pending. -/
def demoHost : Host :=
  { title := "Original", hidden := false, width := 1024, scrollY := 0,
    scrollHeight := 2000, innerHeight := 800, session := some [],
    pending := [], nextHandle := 1, calls := 0 }

/-- Demo host whose session store already holds the CTA marker. -/
def markedHost : Host :=
  { demoHost with session := some [(SESSION_STORAGE_CTA_KEY, "true")] }

/-- Demo configuration with tab-change enabled for both classifications
(eligibility holds at every width). -/
def tabOpts : Options :=
  { mobileWidthThreshold := 768
    triggerScroll := { mobile := false, desktop := false, percentThreshold := 30 }
    triggerMouseMove := true
    triggerTabChange := { mobile := true, desktop := true, delay := 200, title := "We miss you!" }
    storeInUserSession := false }

/-- Trace for C2: mount with the session marker present (the effect's
early return registers the visibility listener but returns no cleanup),
unmount, then a hide event and its timer. -/
def c2run : Runtime :=
  processEvents
    (unmountEngine (mountEngine defaultOptions markedHost))
    [Event.visibility true, Event.timer 1]

/-- Trace for C6: hide on desktop (timer 1), visible at mobile width
(ineligible, nothing cancelled), hide on desktop again (timer 2). -/
def c6run : Runtime :=
  processEvents (mountEngine demoOpts demoHost)
    [Event.visibility true, Event.setWidth 400, Event.visibility false,
     Event.setWidth 1024, Event.visibility true]

/-- Trace for C7: hide on desktop (timer 1), visible at mobile width
(ineligible), then the timer fires while the page is visible. -/
def c7run : Runtime :=
  processEvents (mountEngine demoOpts demoHost)
    [Event.visibility true, Event.setWidth 400, Event.visibility false, Event.timer 1]

/-- Trace for C8: flash title applies and survives an ineligible
visible transition; a corner pointer fire then re-runs the effect,
which re-captures `document.title` into `originalTitle`. -/
def c8run : Runtime :=
  processEvents (mountEngine demoOpts demoHost)
    [Event.visibility true, Event.timer 1, Event.setWidth 400, Event.visibility false,
     Event.setWidth 1024, Event.mouseMove 10 10]

/-- Invariant for C1: mounted, effect flushed to its fixpoint, the
callback ran at most once, it ran only if the flag is set, and the
pointer/scroll detectors are attached only while the flag is unset and
nothing has fired. -/
def Inv1 (rt : Runtime) : Prop :=
  rt.mounted = true ∧
  rt.lastDeps = some rt.react ∧
  rt.host.calls ≤ 1 ∧
  (rt.host.calls = 0 ∨ rt.react.hasTriggered = true) ∧
  (rt.react.hasTriggered = true → rt.mmAttached = false ∧ rt.scAttached = false) ∧
  ((rt.mmAttached = true ∨ rt.scAttached = true) → rt.host.calls = 0)

/-- Invariant for C3: with persistence on and the session marker
present, the detectors are never attached, the callback never runs, and
the visibility listener stays registered. -/
def Inv3 (rt : Runtime) : Prop :=
  rt.mounted = true ∧
  rt.lastDeps = some rt.react ∧
  rt.opts.storeInUserSession = true ∧
  truthyStr (sessionGet rt.host SESSION_STORAGE_CTA_KEY) = true ∧
  rt.host.calls = 0 ∧
  rt.mmAttached = false ∧
  rt.scAttached = false ∧
  rt.visListeners ≠ []

/-- Invariant for the amended timer claims (C6/C7): a single
visibility-listener closure in sync with the state, gate unsatisfied,
at most one pending timer whose handle is the stored one, and — whenever
the page is visible — no pending timer and the original title on
display. -/
def TabInv (origT : String) (rt : Runtime) : Prop :=
  rt.mounted = true ∧
  rt.lastDeps = some rt.react ∧
  rt.react.hasTriggered = false ∧
  rt.curHasCleanup = true ∧
  rt.opts.triggerTabChange.mobile = true ∧
  rt.opts.triggerTabChange.desktop = true ∧
  alreadySatisfied rt = false ∧
  rt.visListeners = [⟨rt.react.timeoutId, rt.react.originalTitle⟩] ∧
  rt.react.originalTitle = origT ∧
  rt.host.pending.length ≤ 1 ∧
  (∀ p ∈ rt.host.pending, rt.react.timeoutId = some p.1) ∧
  (rt.host.hidden = false → rt.host.pending = [] ∧ rt.host.title = origT ∧
    rt.react.timeoutId = none)

set_option maxRecDepth 4000

theorem runCleanup_host (rt : Runtime) : (runCleanup rt).host = rt.host := by
  unfold runCleanup; split <;> rfl

theorem runCleanup_opts (rt : Runtime) : (runCleanup rt).opts = rt.opts := by
  unfold runCleanup; split <;> rfl

theorem runCleanup_mounted (rt : Runtime) : (runCleanup rt).mounted = rt.mounted := by
  unfold runCleanup; split <;> rfl

theorem runCleanup_react (rt : Runtime) : (runCleanup rt).react = rt.react := by
  unfold runCleanup; split <;> rfl

theorem runCleanup_lastDeps (rt : Runtime) : (runCleanup rt).lastDeps = rt.lastDeps := by
  unfold runCleanup; split <;> rfl

theorem runCleanup_vis (rt : Runtime) :
    (runCleanup rt).visListeners =
      if rt.curHasCleanup = true then rt.visListeners.dropLast else rt.visListeners := by
  unfold runCleanup; split <;> simp_all

theorem runCleanup_cur (rt : Runtime) : (runCleanup rt).curHasCleanup = false ∨ runCleanup rt = rt := by
  unfold runCleanup; split
  · exact Or.inl rfl
  · exact Or.inr rfl

theorem alreadySatisfied_runCleanup (rt : Runtime) :
    alreadySatisfied (runCleanup rt) = alreadySatisfied rt := by
  unfold alreadySatisfied
  rw [runCleanup_react, runCleanup_opts, runCleanup_host]

theorem runEffectBody_host (rt : Runtime) : (runEffectBody rt).host = rt.host := by
  cases h : alreadySatisfied rt <;>
    simp only [alreadySatisfied, Bool.or_eq_true, Bool.and_eq_true] at h <;>
    simp [runEffectBody, h]

theorem runEffectBody_opts (rt : Runtime) : (runEffectBody rt).opts = rt.opts := by
  cases h : alreadySatisfied rt <;>
    simp only [alreadySatisfied, Bool.or_eq_true, Bool.and_eq_true] at h <;>
    simp [runEffectBody, h]

theorem runEffectBody_mounted (rt : Runtime) : (runEffectBody rt).mounted = rt.mounted := by
  cases h : alreadySatisfied rt <;>
    simp only [alreadySatisfied, Bool.or_eq_true, Bool.and_eq_true] at h <;>
    simp [runEffectBody, h]

theorem runEffectBody_react (rt : Runtime) :
    (runEffectBody rt).react = { rt.react with originalTitle := rt.host.title } := by
  cases h : alreadySatisfied rt <;>
    simp only [alreadySatisfied, Bool.or_eq_true, Bool.and_eq_true] at h <;>
    simp [runEffectBody, h]

theorem runEffectBody_lastDeps (rt : Runtime) :
    (runEffectBody rt).lastDeps = some rt.react := by
  cases h : alreadySatisfied rt <;>
    simp only [alreadySatisfied, Bool.or_eq_true, Bool.and_eq_true] at h <;>
    simp [runEffectBody, h]

theorem runEffectBody_vis (rt : Runtime) :
    (runEffectBody rt).visListeners =
      rt.visListeners ++ [⟨rt.react.timeoutId, rt.react.originalTitle⟩] := by
  cases h : alreadySatisfied rt <;>
    simp only [alreadySatisfied, Bool.or_eq_true, Bool.and_eq_true] at h <;>
    simp [runEffectBody, h]

theorem runEffectBody_mm (rt : Runtime) :
    (runEffectBody rt).mmAttached = (!alreadySatisfied rt && rt.opts.triggerMouseMove) := by
  cases h : alreadySatisfied rt <;>
    simp only [alreadySatisfied] at h <;>
    simp [runEffectBody, h, alreadySatisfied]

theorem runEffectBody_sc (rt : Runtime) :
    (runEffectBody rt).scAttached =
      (!alreadySatisfied rt && (rt.opts.triggerScroll.mobile || rt.opts.triggerScroll.desktop)) := by
  cases h : alreadySatisfied rt <;>
    simp only [alreadySatisfied] at h <;>
    simp [runEffectBody, h, alreadySatisfied]

theorem runEffectBody_cur (rt : Runtime) :
    (runEffectBody rt).curHasCleanup = !alreadySatisfied rt := by
  cases h : alreadySatisfied rt <;>
    simp only [alreadySatisfied] at h <;>
    simp [runEffectBody, h, alreadySatisfied]

theorem alreadySatisfied_runEffectBody (rt : Runtime) :
    alreadySatisfied (runEffectBody rt) = alreadySatisfied rt := by
  unfold alreadySatisfied
  rw [runEffectBody_opts, runEffectBody_host]
  rw [runEffectBody_react]

theorem react_set_title_self (R : ReactState) (t : String) (h : R.originalTitle = t) :
    ({ R with originalTitle := t } : ReactState) = R := by
  cases R
  cases h
  rfl

theorem flushStep_of_fixed (rt : Runtime) (h : rt.lastDeps = some rt.react) :
    flushStep rt = rt := by
  unfold flushStep; simp [h]

theorem flushStep_of_ne (rt : Runtime) (h : ¬ rt.lastDeps = some rt.react) :
    flushStep rt = runEffectBody (runCleanup rt) := by
  unfold flushStep; simp [h]

theorem flushEffects_of_fixed (rt : Runtime) (h : rt.lastDeps = some rt.react) :
    flushEffects rt = rt := by
  unfold flushEffects
  rw [flushStep_of_fixed rt h, flushStep_of_fixed rt h]
  split <;> rfl

theorem flushStep_host (rt : Runtime) : (flushStep rt).host = rt.host := by
  by_cases h : rt.lastDeps = some rt.react
  · rw [flushStep_of_fixed rt h]
  · rw [flushStep_of_ne rt h, runEffectBody_host, runCleanup_host]

theorem flushStep_opts (rt : Runtime) : (flushStep rt).opts = rt.opts := by
  by_cases h : rt.lastDeps = some rt.react
  · rw [flushStep_of_fixed rt h]
  · rw [flushStep_of_ne rt h, runEffectBody_opts, runCleanup_opts]

theorem flushStep_mounted (rt : Runtime) : (flushStep rt).mounted = rt.mounted := by
  by_cases h : rt.lastDeps = some rt.react
  · rw [flushStep_of_fixed rt h]
  · rw [flushStep_of_ne rt h, runEffectBody_mounted, runCleanup_mounted]

theorem flushStep_hasTriggered (rt : Runtime) :
    (flushStep rt).react.hasTriggered = rt.react.hasTriggered := by
  by_cases h : rt.lastDeps = some rt.react
  · rw [flushStep_of_fixed rt h]
  · rw [flushStep_of_ne rt h, runEffectBody_react, runCleanup_react]

theorem flushStep_timeoutId (rt : Runtime) :
    (flushStep rt).react.timeoutId = rt.react.timeoutId := by
  by_cases h : rt.lastDeps = some rt.react
  · rw [flushStep_of_fixed rt h]
  · rw [flushStep_of_ne rt h, runEffectBody_react, runCleanup_react]

theorem alreadySatisfied_flushStep (rt : Runtime) :
    alreadySatisfied (flushStep rt) = alreadySatisfied rt := by
  by_cases h : rt.lastDeps = some rt.react
  · rw [flushStep_of_fixed rt h]
  · rw [flushStep_of_ne rt h, alreadySatisfied_runEffectBody, alreadySatisfied_runCleanup]

theorem flushEffects_host (rt : Runtime) : (flushEffects rt).host = rt.host := by
  unfold flushEffects
  split
  · rw [flushStep_host, flushStep_host]
  · rfl

theorem flushEffects_opts (rt : Runtime) : (flushEffects rt).opts = rt.opts := by
  unfold flushEffects
  split
  · rw [flushStep_opts, flushStep_opts]
  · rfl

theorem flushEffects_mounted (rt : Runtime) : (flushEffects rt).mounted = rt.mounted := by
  unfold flushEffects
  split
  · rw [flushStep_mounted, flushStep_mounted]
  · rfl

theorem flushEffects_hasTriggered (rt : Runtime) :
    (flushEffects rt).react.hasTriggered = rt.react.hasTriggered := by
  unfold flushEffects
  split
  · rw [flushStep_hasTriggered, flushStep_hasTriggered]
  · rfl

theorem flushEffects_timeoutId (rt : Runtime) :
    (flushEffects rt).react.timeoutId = rt.react.timeoutId := by
  unfold flushEffects
  split
  · rw [flushStep_timeoutId, flushStep_timeoutId]
  · rfl

theorem alreadySatisfied_flushEffects (rt : Runtime) :
    alreadySatisfied (flushEffects rt) = alreadySatisfied rt := by
  unfold flushEffects
  split
  · rw [alreadySatisfied_flushStep, alreadySatisfied_flushStep]
  · rfl

theorem flushEffects_fixed (rt : Runtime) (hm : rt.mounted = true) :
    (flushEffects rt).lastDeps = some (flushEffects rt).react := by
  unfold flushEffects
  rw [hm]
  simp only [if_true]
  by_cases h1 : rt.lastDeps = some rt.react
  · rw [flushStep_of_fixed rt h1, flushStep_of_fixed rt h1]
    exact h1
  · rw [flushStep_of_ne rt h1]
    by_cases h2 : (runEffectBody (runCleanup rt)).lastDeps = some (runEffectBody (runCleanup rt)).react
    · rw [flushStep_of_fixed _ h2]
      exact h2
    · rw [flushStep_of_ne _ h2]
      rw [runEffectBody_lastDeps, runEffectBody_react, runCleanup_react, runCleanup_host]
      have hts : (runEffectBody (runCleanup rt)).react.originalTitle =
          (runEffectBody (runCleanup rt)).host.title := by
        rw [runEffectBody_react, runCleanup_react, runEffectBody_host, runCleanup_host]
      exact congrArg some (react_set_title_self _ _ hts).symm

theorem flushEffects_run_att (rt : Runtime) (hm : rt.mounted = true)
    (hnd : ¬ rt.lastDeps = some rt.react) :
    (flushEffects rt).mmAttached = (!alreadySatisfied rt && rt.opts.triggerMouseMove) ∧
    (flushEffects rt).scAttached =
      (!alreadySatisfied rt && (rt.opts.triggerScroll.mobile || rt.opts.triggerScroll.desktop)) ∧
    (flushEffects rt).curHasCleanup = !alreadySatisfied rt ∧
    (flushEffects rt).react = { rt.react with originalTitle := rt.host.title } ∧
    (flushEffects rt).visListeners ≠ [] := by
  unfold flushEffects
  rw [hm]
  simp only [if_true]
  rw [flushStep_of_ne rt hnd]
  have e1 : (runEffectBody (runCleanup rt)).mmAttached =
      (!alreadySatisfied rt && rt.opts.triggerMouseMove) := by
    rw [runEffectBody_mm, alreadySatisfied_runCleanup, runCleanup_opts]
  have e2 : (runEffectBody (runCleanup rt)).scAttached =
      (!alreadySatisfied rt && (rt.opts.triggerScroll.mobile || rt.opts.triggerScroll.desktop)) := by
    rw [runEffectBody_sc, alreadySatisfied_runCleanup, runCleanup_opts]
  have e3 : (runEffectBody (runCleanup rt)).curHasCleanup = !alreadySatisfied rt := by
    rw [runEffectBody_cur, alreadySatisfied_runCleanup]
  have e4 : (runEffectBody (runCleanup rt)).react =
      { rt.react with originalTitle := rt.host.title } := by
    rw [runEffectBody_react, runCleanup_react, runCleanup_host]
  have e5 : (runEffectBody (runCleanup rt)).visListeners ≠ [] := by
    rw [runEffectBody_vis]
    simp
  by_cases h2 : (runEffectBody (runCleanup rt)).lastDeps = some (runEffectBody (runCleanup rt)).react
  · rw [flushStep_of_fixed _ h2]
    exact ⟨e1, e2, e3, e4, e5⟩
  · rw [flushStep_of_ne _ h2]
    refine ⟨?_, ?_, ?_, ?_, ?_⟩
    · rw [runEffectBody_mm, alreadySatisfied_runCleanup, alreadySatisfied_runEffectBody,
        alreadySatisfied_runCleanup, runCleanup_opts, runEffectBody_opts, runCleanup_opts]
    · rw [runEffectBody_sc, alreadySatisfied_runCleanup, alreadySatisfied_runEffectBody,
        alreadySatisfied_runCleanup, runCleanup_opts, runEffectBody_opts, runCleanup_opts]
    · rw [runEffectBody_cur, alreadySatisfied_runCleanup, alreadySatisfied_runEffectBody,
        alreadySatisfied_runCleanup]
    · rw [runEffectBody_react, runCleanup_react, runCleanup_host, runEffectBody_host,
        runCleanup_host, e4]
    · rw [runEffectBody_vis]
      simp

theorem flushEffects_run_unsat (rt : Runtime) (hm : rt.mounted = true)
    (hnd : ¬ rt.lastDeps = some rt.react) (hsat : alreadySatisfied rt = false) :
    (flushEffects rt).visListeners =
      (if rt.curHasCleanup = true then rt.visListeners.dropLast else rt.visListeners) ++
        [⟨rt.react.timeoutId, rt.host.title⟩] := by
  unfold flushEffects
  rw [hm]
  simp only [if_true]
  rw [flushStep_of_ne rt hnd]
  have hv1 : (runEffectBody (runCleanup rt)).visListeners =
      (if rt.curHasCleanup = true then rt.visListeners.dropLast else rt.visListeners) ++
        [⟨rt.react.timeoutId, rt.react.originalTitle⟩] := by
    rw [runEffectBody_vis, runCleanup_vis, runCleanup_react]
  by_cases h2 : (runEffectBody (runCleanup rt)).lastDeps = some (runEffectBody (runCleanup rt)).react
  · rw [flushStep_of_fixed _ h2]
    rw [runEffectBody_lastDeps, runCleanup_react, runEffectBody_react, runCleanup_react,
      runCleanup_host] at h2
    have h3 : rt.react.originalTitle = rt.host.title := by
      have h4 := congrArg ReactState.originalTitle (Option.some.inj h2)
      exact h4
    rw [hv1, h3]
  · rw [flushStep_of_ne _ h2]
    rw [runEffectBody_vis, runCleanup_vis]
    have hcur : (runEffectBody (runCleanup rt)).curHasCleanup = true := by
      rw [runEffectBody_cur, alreadySatisfied_runCleanup, hsat]
      rfl
    rw [hcur]
    simp only [if_true]
    rw [hv1]
    have hr2 : (runEffectBody (runCleanup rt)).react.timeoutId = rt.react.timeoutId := by
      rw [runEffectBody_react, runCleanup_react]
    have hr3 : (runEffectBody (runCleanup rt)).react.originalTitle = rt.host.title := by
      rw [runEffectBody_react, runCleanup_react, runCleanup_host]
    rw [List.dropLast_concat, runCleanup_react, hr2, hr3]

theorem visDispatchOne_pres (o : Options) (c : VisClosure) (st : Host × ReactState) :
    (visDispatchOne o c st).1.calls = st.1.calls ∧
    (visDispatchOne o c st).1.session = st.1.session ∧
    (visDispatchOne o c st).1.width = st.1.width ∧
    (visDispatchOne o c st).1.hidden = st.1.hidden ∧
    (visDispatchOne o c st).2.hasTriggered = st.2.hasTriggered ∧
    (visDispatchOne o c st).2.originalTitle = st.2.originalTitle := by
  unfold visDispatchOne
  by_cases he : ((isDesktopAt st.1.width o.mobileWidthThreshold && o.triggerTabChange.desktop) ||
      (!(isDesktopAt st.1.width o.mobileWidthThreshold) && o.triggerTabChange.mobile)) = true
  · by_cases hh : st.1.hidden = true
    · simp [he, hh]
    · cases ht : c.timeoutId <;> simp [he, hh, ht]
  · simp [he]

theorem visFold_pres (o : Options) (cs : List VisClosure) (st : Host × ReactState) :
    ((cs.foldl (fun s c => visDispatchOne o c s) st).1.calls = st.1.calls) ∧
    ((cs.foldl (fun s c => visDispatchOne o c s) st).1.session = st.1.session) ∧
    ((cs.foldl (fun s c => visDispatchOne o c s) st).1.width = st.1.width) ∧
    ((cs.foldl (fun s c => visDispatchOne o c s) st).1.hidden = st.1.hidden) ∧
    ((cs.foldl (fun s c => visDispatchOne o c s) st).2.hasTriggered = st.2.hasTriggered) ∧
    ((cs.foldl (fun s c => visDispatchOne o c s) st).2.originalTitle = st.2.originalTitle) := by
  induction cs generalizing st with
  | nil => simp
  | cons c cs ih =>
    simp only [List.foldl_cons]
    have h1 := visDispatchOne_pres o c st
    have h2 := ih (visDispatchOne o c st)
    exact ⟨h2.1.trans h1.1, h2.2.1.trans h1.2.1, h2.2.2.1.trans h1.2.2.1,
      h2.2.2.2.1.trans h1.2.2.2.1, h2.2.2.2.2.1.trans h1.2.2.2.2.1,
      h2.2.2.2.2.2.trans h1.2.2.2.2.2⟩

theorem dispatchVisibility_pres (rt : Runtime) (b : Bool) :
    (dispatchVisibility rt b).host.calls = rt.host.calls ∧
    (dispatchVisibility rt b).host.session = rt.host.session ∧
    (dispatchVisibility rt b).host.width = rt.host.width ∧
    (dispatchVisibility rt b).host.hidden = b ∧
    (dispatchVisibility rt b).react.hasTriggered = rt.react.hasTriggered ∧
    (dispatchVisibility rt b).react.originalTitle = rt.react.originalTitle ∧
    (dispatchVisibility rt b).opts = rt.opts ∧
    (dispatchVisibility rt b).mounted = rt.mounted ∧
    (dispatchVisibility rt b).lastDeps = rt.lastDeps ∧
    (dispatchVisibility rt b).visListeners = rt.visListeners ∧
    (dispatchVisibility rt b).mmAttached = rt.mmAttached ∧
    (dispatchVisibility rt b).scAttached = rt.scAttached ∧
    (dispatchVisibility rt b).curHasCleanup = rt.curHasCleanup := by
  unfold dispatchVisibility
  have h := visFold_pres rt.opts rt.visListeners ({ rt.host with hidden := b }, rt.react)
  refine ⟨h.1, h.2.1, h.2.2.1, h.2.2.2.1, ?_, ?_, rfl, rfl, rfl, rfl, rfl, rfl, rfl⟩
  · by_cases hmt : rt.mounted = true <;> simp [hmt, h.2.2.2.2.1]
  · by_cases hmt : rt.mounted = true <;> simp [hmt, h.2.2.2.2.2]

theorem alreadySatisfied_dispatchVisibility (rt : Runtime) (b : Bool) :
    alreadySatisfied (dispatchVisibility rt b) = alreadySatisfied rt := by
  have h := dispatchVisibility_pres rt b
  unfold alreadySatisfied
  rw [h.2.2.2.2.1, h.2.2.2.2.2.2.1]
  unfold sessionGet
  rw [h.2.1]

theorem dispatchMouseMove_no (rt : Runtime) (x y : ℚ)
    (h : ¬ (rt.mmAttached && mouseMoveFires rt.opts rt.host.width x y) = true) :
    dispatchMouseMove rt x y = rt := by
  unfold dispatchMouseMove
  simp [h]

theorem dispatchMouseMove_yes (rt : Runtime) (x y : ℚ)
    (h : (rt.mmAttached && mouseMoveFires rt.opts rt.host.width x y) = true)
    (hm : rt.mounted = true) :
    (dispatchMouseMove rt x y).host.calls = rt.host.calls + 1 ∧
    (dispatchMouseMove rt x y).react = { rt.react with hasTriggered := true } ∧
    (dispatchMouseMove rt x y).opts = rt.opts ∧
    (dispatchMouseMove rt x y).mounted = rt.mounted ∧
    (dispatchMouseMove rt x y).lastDeps = rt.lastDeps ∧
    (dispatchMouseMove rt x y).mmAttached = rt.mmAttached ∧
    (dispatchMouseMove rt x y).scAttached = rt.scAttached ∧
    (dispatchMouseMove rt x y).curHasCleanup = rt.curHasCleanup ∧
    (dispatchMouseMove rt x y).visListeners = rt.visListeners := by
  unfold dispatchMouseMove
  by_cases hs : rt.opts.storeInUserSession = true <;>
    simp [h, hm, hs, sessionSet] <;>
    cases hss : rt.host.session <;> simp [hss]

theorem dispatchScroll_char (rt : Runtime) (sy sh ih : ℚ) :
    ((dispatchScroll rt sy sh ih).react = rt.react ∧
       (dispatchScroll rt sy sh ih).host.calls = rt.host.calls ∧
       (dispatchScroll rt sy sh ih).host.session = rt.host.session) ∨
    ((rt.scAttached = true) ∧
       (dispatchScroll rt sy sh ih).host.calls = rt.host.calls + 1 ∧
       (dispatchScroll rt sy sh ih).react =
         (if rt.mounted then { rt.react with hasTriggered := true } else rt.react)) := by
  unfold dispatchScroll
  by_cases h : (rt.scAttached && scrollWouldFire rt.opts rt.host.width sy (sh - ih)) = true
  · right
    refine ⟨(Bool.and_eq_true _ _).mp h |>.1, ?_, ?_⟩ <;>
      by_cases hs : rt.opts.storeInUserSession = true <;>
        simp [h, hs, sessionSet] <;>
        cases hss : rt.host.session <;> simp [hss]
  · left
    simp [h]

theorem dispatchScroll_more (rt : Runtime) (sy sh ih : ℚ) :
    (dispatchScroll rt sy sh ih).opts = rt.opts ∧
    (dispatchScroll rt sy sh ih).mounted = rt.mounted ∧
    (dispatchScroll rt sy sh ih).lastDeps = rt.lastDeps ∧
    (dispatchScroll rt sy sh ih).mmAttached = rt.mmAttached ∧
    (dispatchScroll rt sy sh ih).scAttached = rt.scAttached ∧
    (dispatchScroll rt sy sh ih).curHasCleanup = rt.curHasCleanup ∧
    (dispatchScroll rt sy sh ih).visListeners = rt.visListeners := by
  unfold dispatchScroll
  by_cases h : (rt.scAttached && scrollWouldFire rt.opts rt.host.width sy (sh - ih)) = true <;>
    by_cases hs : rt.opts.storeInUserSession = true <;>
      simp [h, hs, sessionSet]

theorem fireTimer_char (rt : Runtime) (id : Nat) :
    (fireTimer rt id).react = rt.react ∧
    (fireTimer rt id).host.calls = rt.host.calls ∧
    (fireTimer rt id).host.session = rt.host.session ∧
    (fireTimer rt id).host.width = rt.host.width ∧
    (fireTimer rt id).host.hidden = rt.host.hidden ∧
    (fireTimer rt id).opts = rt.opts ∧
    (fireTimer rt id).mounted = rt.mounted ∧
    (fireTimer rt id).lastDeps = rt.lastDeps ∧
    (fireTimer rt id).mmAttached = rt.mmAttached ∧
    (fireTimer rt id).scAttached = rt.scAttached ∧
    (fireTimer rt id).curHasCleanup = rt.curHasCleanup ∧
    (fireTimer rt id).visListeners = rt.visListeners := by
  unfold fireTimer
  cases h : rt.host.pending.find? (fun p => p.1 == id) <;> simp [h]

theorem Inv1_processEvent (rt : Runtime) (e : Event) (h : Inv1 rt) :
    Inv1 (processEvent rt e) := by
  obtain ⟨hm, hfix, hc1, hc0, htr, hat⟩ := h
  cases e with
  | mouseMove x y =>
    show Inv1 (flushEffects (dispatchMouseMove rt x y))
    by_cases hf : (rt.mmAttached && mouseMoveFires rt.opts rt.host.width x y) = true
    · have hmm : rt.mmAttached = true := ((Bool.and_eq_true _ _).mp hf).1
      have hcz : rt.host.calls = 0 := hat (Or.inl hmm)
      have hht : rt.react.hasTriggered = false := by
        cases hb : rt.react.hasTriggered
        · rfl
        · exact absurd (htr hb).1 (by simp [hmm])
      obtain ⟨d1, d2, d3, d4, d5, d6, d7, d8, d9⟩ := dispatchMouseMove_yes rt x y hf hm
      set rt1 := dispatchMouseMove rt x y with hrt1
      have hm1 : rt1.mounted = true := by rw [d4, hm]
      have hnd1 : ¬ rt1.lastDeps = some rt1.react := by
        rw [d5, d2, hfix]
        intro hcon
        have := congrArg ReactState.hasTriggered (Option.some.inj hcon)
        simp [hht] at this
      have hsat1 : alreadySatisfied rt1 = true := by
        unfold alreadySatisfied
        rw [d2]
        simp
      obtain ⟨a1, a2, a3, a4, a5⟩ := flushEffects_run_att rt1 hm1 hnd1
      refine ⟨?_, ?_, ?_, ?_, ?_, ?_⟩
      · rw [flushEffects_mounted, hm1]
      · exact flushEffects_fixed rt1 hm1
      · rw [flushEffects_host, d1, hcz]
      · right
        rw [flushEffects_hasTriggered, d2]
      · intro _
        rw [a1, a2, hsat1]
        simp
      · intro hcon
        rw [a1, hsat1] at hcon
        rw [a2, hsat1] at hcon
        simp at hcon
    · rw [dispatchMouseMove_no rt x y hf, flushEffects_of_fixed rt hfix]
      exact ⟨hm, hfix, hc1, hc0, htr, hat⟩
  | scroll sy sh ih =>
    show Inv1 (flushEffects (dispatchScroll rt sy sh ih))
    obtain ⟨m1, m2, m3, m4, m5, m6, m7⟩ := dispatchScroll_more rt sy sh ih
    set rt1 := dispatchScroll rt sy sh ih with hrt1
    have hm1 : rt1.mounted = true := by rw [m2, hm]
    rcases dispatchScroll_char rt sy sh ih with ⟨e1, e2, e3⟩ | ⟨hsc, e2, e3⟩
    · have hfix1 : rt1.lastDeps = some rt1.react := by rw [m3, e1, hfix]
      rw [flushEffects_of_fixed rt1 hfix1]
      refine ⟨hm1, hfix1, ?_, ?_, ?_, ?_⟩
      · rw [e2]; exact hc1
      · rw [e2, e1]; exact hc0
      · rw [e1, m4, m5]; exact htr
      · rw [m4, m5, e2]; exact hat
    · have hcz : rt.host.calls = 0 := hat (Or.inr hsc)
      have hht : rt.react.hasTriggered = false := by
        cases hb : rt.react.hasTriggered
        · rfl
        · exact absurd (htr hb).2 (by simp [hsc])
      rw [hm] at e3
      simp only [if_true] at e3
      have hnd1 : ¬ rt1.lastDeps = some rt1.react := by
        rw [m3, e3, hfix]
        intro hcon
        have := congrArg ReactState.hasTriggered (Option.some.inj hcon)
        simp [hht] at this
      have hsat1 : alreadySatisfied rt1 = true := by
        unfold alreadySatisfied
        rw [e3]
        simp
      obtain ⟨a1, a2, a3, a4, a5⟩ := flushEffects_run_att rt1 hm1 hnd1
      refine ⟨?_, ?_, ?_, ?_, ?_, ?_⟩
      · rw [flushEffects_mounted, hm1]
      · exact flushEffects_fixed rt1 hm1
      · rw [flushEffects_host, e2, hcz]
      · right
        rw [flushEffects_hasTriggered, e3]
      · intro _
        rw [a1, a2, hsat1]
        simp
      · intro hcon
        rw [a1, hsat1] at hcon
        rw [a2, hsat1] at hcon
        simp at hcon
  | visibility b =>
    show Inv1 (flushEffects (dispatchVisibility rt b))
    obtain ⟨v1, v2, v3, v4, v5, v6, v7, v8, v9, v10, v11, v12, v13⟩ :=
      dispatchVisibility_pres rt b
    set rt1 := dispatchVisibility rt b with hrt1
    have hm1 : rt1.mounted = true := by rw [v8, hm]
    have hsat1 : alreadySatisfied rt1 = alreadySatisfied rt :=
      alreadySatisfied_dispatchVisibility rt b
    by_cases hnd1 : rt1.lastDeps = some rt1.react
    · rw [flushEffects_of_fixed rt1 hnd1]
      refine ⟨hm1, hnd1, ?_, ?_, ?_, ?_⟩
      · rw [v1]; exact hc1
      · rw [v1, v5]; exact hc0
      · rw [v5, v11, v12]; exact htr
      · rw [v11, v12, v1]; exact hat
    · obtain ⟨a1, a2, a3, a4, a5⟩ := flushEffects_run_att rt1 hm1 hnd1
      refine ⟨?_, ?_, ?_, ?_, ?_, ?_⟩
      · rw [flushEffects_mounted, hm1]
      · exact flushEffects_fixed rt1 hm1
      · rw [flushEffects_host, v1]; exact hc1
      · rw [flushEffects_host, v1, flushEffects_hasTriggered, v5]
        exact hc0
      · intro hcon
        rw [flushEffects_hasTriggered, v5] at hcon
        have hsatT : alreadySatisfied rt1 = true := by
          unfold alreadySatisfied
          rw [v5, hcon]
          simp
        rw [a1, a2, hsatT]
        simp
      · intro hcon
        rw [flushEffects_host, v1]
        rcases hcon with hcon | hcon
        · rw [a1] at hcon
          have : alreadySatisfied rt1 = false := by
            cases hh : alreadySatisfied rt1
            · rfl
            · rw [hh] at hcon; simp at hcon
          have hht1 : rt1.react.hasTriggered = false := by
            unfold alreadySatisfied at this
            rcases Bool.or_eq_false_iff.mp this with ⟨h1, _⟩
            exact h1
          rw [v5] at hht1
          rcases hc0 with hz | ht
          · exact hz
          · rw [ht] at hht1; exact absurd hht1 (by simp)
        · rw [a2] at hcon
          have : alreadySatisfied rt1 = false := by
            cases hh : alreadySatisfied rt1
            · rfl
            · rw [hh] at hcon; simp at hcon
          have hht1 : rt1.react.hasTriggered = false := by
            unfold alreadySatisfied at this
            rcases Bool.or_eq_false_iff.mp this with ⟨h1, _⟩
            exact h1
          rw [v5] at hht1
          rcases hc0 with hz | ht
          · exact hz
          · rw [ht] at hht1; exact absurd hht1 (by simp)
  | timer id =>
    show Inv1 (flushEffects (fireTimer rt id))
    obtain ⟨t1, t2, t3, t4, t5, t6, t7, t8, t9, t10, t11, t12⟩ := fireTimer_char rt id
    have hfix1 : (fireTimer rt id).lastDeps = some (fireTimer rt id).react := by
      rw [t8, t1, hfix]
    rw [flushEffects_of_fixed _ hfix1]
    refine ⟨?_, hfix1, ?_, ?_, ?_, ?_⟩
    · rw [t7, hm]
    · rw [t2]; exact hc1
    · rw [t2, t1]; exact hc0
    · rw [t1, t9, t10]; exact htr
    · rw [t9, t10, t2]; exact hat
  | setWidth w =>
    show Inv1 (flushEffects { rt with host := { rt.host with width := w } })
    have hfix1 : ({ rt with host := { rt.host with width := w } } : Runtime).lastDeps =
        some ({ rt with host := { rt.host with width := w } } : Runtime).react := hfix
    rw [flushEffects_of_fixed _ hfix1]
    exact ⟨hm, hfix, hc1, hc0, htr, hat⟩

theorem Inv1_mount (o : Options) (hst : Host) : Inv1 (mountEngine o hst) := by
  unfold mountEngine
  refine ⟨?_, ?_, ?_, ?_, ?_, ?_⟩
  · rw [flushEffects_mounted]
  · exact flushEffects_fixed _ rfl
  · rw [flushEffects_host]
    norm_num
  · left
    rw [flushEffects_host]
  · intro hcon
    rw [flushEffects_hasTriggered] at hcon
    exact absurd hcon (by simp)
  · intro _
    rw [flushEffects_host]

theorem Inv1_processEvents (rt : Runtime) (es : List Event) (h : Inv1 rt) :
    Inv1 (processEvents rt es) := by
  induction es generalizing rt with
  | nil => exact h
  | cons e es ih =>
    exact ih (processEvent rt e) (Inv1_processEvent rt e h)

/-- C1: within one Engine (hook-instance) lifetime, over every event
sequence, the `onTrigger` callback is invoked at most once, no matter
how many pointer-move or scroll events satisfy a heuristic's firing
condition before or after the first fire. -/
theorem onTrigger_at_most_once (o : Options) (h : Host) (es : List Event) :
    (processEvents (mountEngine o h) es).host.calls ≤ 1 :=
  (Inv1_processEvents _ es (Inv1_mount o h)).2.2.1

theorem Inv3_sat (rt : Runtime) (hs : rt.opts.storeInUserSession = true)
    (hmk : truthyStr (sessionGet rt.host SESSION_STORAGE_CTA_KEY) = true) :
    alreadySatisfied rt = true := by
  unfold alreadySatisfied
  rw [hs, hmk]
  simp

theorem Inv3_processEvent (rt : Runtime) (e : Event) (h : Inv3 rt) :
    Inv3 (processEvent rt e) := by
  obtain ⟨hm, hfix, hs, hmk, hcz, hmf, hsf, hvn⟩ := h
  cases e with
  | mouseMove x y =>
    show Inv3 (flushEffects (dispatchMouseMove rt x y))
    have hno : ¬ (rt.mmAttached && mouseMoveFires rt.opts rt.host.width x y) = true := by
      rw [hmf]
      simp
    rw [dispatchMouseMove_no rt x y hno, flushEffects_of_fixed rt hfix]
    exact ⟨hm, hfix, hs, hmk, hcz, hmf, hsf, hvn⟩
  | scroll sy sh ih =>
    show Inv3 (flushEffects (dispatchScroll rt sy sh ih))
    obtain ⟨m1, m2, m3, m4, m5, m6, m7⟩ := dispatchScroll_more rt sy sh ih
    rcases dispatchScroll_char rt sy sh ih with ⟨e1, e2, e3⟩ | ⟨hcon, _, _⟩
    · have hfix1 : (dispatchScroll rt sy sh ih).lastDeps =
          some (dispatchScroll rt sy sh ih).react := by rw [m3, e1, hfix]
      rw [flushEffects_of_fixed _ hfix1]
      refine ⟨by rw [m2, hm], hfix1, by rw [m1, hs], ?_, by rw [e2, hcz], by rw [m4, hmf],
        by rw [m5, hsf], by rw [m7]; exact hvn⟩
      unfold sessionGet
      rw [e3]
      unfold sessionGet at hmk
      exact hmk
    · rw [hsf] at hcon
      exact absurd hcon (by simp)
  | visibility b =>
    show Inv3 (flushEffects (dispatchVisibility rt b))
    obtain ⟨v1, v2, v3, v4, v5, v6, v7, v8, v9, v10, v11, v12, v13⟩ :=
      dispatchVisibility_pres rt b
    set rt1 := dispatchVisibility rt b with hrt1
    have hm1 : rt1.mounted = true := by rw [v8, hm]
    have hs1 : rt1.opts.storeInUserSession = true := by rw [v7, hs]
    have hmk1 : truthyStr (sessionGet rt1.host SESSION_STORAGE_CTA_KEY) = true := by
      unfold sessionGet
      rw [v2]
      unfold sessionGet at hmk
      exact hmk
    have hsat1 : alreadySatisfied rt1 = true := Inv3_sat rt1 hs1 hmk1
    by_cases hnd1 : rt1.lastDeps = some rt1.react
    · rw [flushEffects_of_fixed rt1 hnd1]
      exact ⟨hm1, hnd1, hs1, hmk1, by rw [v1, hcz], by rw [v11, hmf], by rw [v12, hsf],
        by rw [v10]; exact hvn⟩
    · obtain ⟨a1, a2, a3, a4, a5⟩ := flushEffects_run_att rt1 hm1 hnd1
      refine ⟨by rw [flushEffects_mounted, hm1], flushEffects_fixed rt1 hm1,
        by rw [flushEffects_opts, hs1], ?_, by rw [flushEffects_host, v1, hcz],
        by rw [a1, hsat1]; simp, by rw [a2, hsat1]; simp, a5⟩
      unfold sessionGet
      rw [flushEffects_host]
      unfold sessionGet at hmk1
      exact hmk1
  | timer id =>
    show Inv3 (flushEffects (fireTimer rt id))
    obtain ⟨t1, t2, t3, t4, t5, t6, t7, t8, t9, t10, t11, t12⟩ := fireTimer_char rt id
    have hfix1 : (fireTimer rt id).lastDeps = some (fireTimer rt id).react := by
      rw [t8, t1, hfix]
    rw [flushEffects_of_fixed _ hfix1]
    refine ⟨by rw [t7, hm], hfix1, by rw [t6, hs], ?_, by rw [t2, hcz], by rw [t9, hmf],
      by rw [t10, hsf], by rw [t12]; exact hvn⟩
    unfold sessionGet
    rw [t3]
    unfold sessionGet at hmk
    exact hmk
  | setWidth w =>
    show Inv3 (flushEffects { rt with host := { rt.host with width := w } })
    have hfix1 : ({ rt with host := { rt.host with width := w } } : Runtime).lastDeps =
        some ({ rt with host := { rt.host with width := w } } : Runtime).react := hfix
    rw [flushEffects_of_fixed _ hfix1]
    exact ⟨hm, hfix, hs, hmk, hcz, hmf, hsf, hvn⟩

theorem Inv3_mount (o : Options) (hst : Host) (hs : o.storeInUserSession = true)
    (hmk : truthyStr (sessionGet hst SESSION_STORAGE_CTA_KEY) = true) : Inv3 (mountEngine o hst) := by
  unfold mountEngine
  set rt0 : Runtime :=
    { opts := o, host := { hst with calls := 0 },
      react := { hasTriggered := false, originalTitle := "", timeoutId := none },
      visListeners := [], mmAttached := false, scAttached := false,
      curHasCleanup := false, lastDeps := none, mounted := true } with hrt0
  have hm0 : rt0.mounted = true := rfl
  have hsat0 : alreadySatisfied rt0 = true := by
    unfold alreadySatisfied
    rw [hrt0]
    rw [hs]
    unfold sessionGet
    unfold sessionGet at hmk
    rw [hmk]
    simp
  have hnd : ¬ rt0.lastDeps = some rt0.react := by
    rw [hrt0]
    simp
  obtain ⟨a1, a2, a3, a4, a5⟩ := flushEffects_run_att rt0 hm0 hnd
  refine ⟨by rw [flushEffects_mounted, hm0], flushEffects_fixed rt0 hm0,
    by rw [flushEffects_opts]; exact hs,
    ?_, by rw [flushEffects_host], by rw [a1, hsat0]; simp, by rw [a2, hsat0]; simp, a5⟩
  unfold sessionGet
  rw [flushEffects_host]
  unfold sessionGet at hmk
  exact hmk

theorem Inv3_processEvents (rt : Runtime) (es : List Event) (h : Inv3 rt) :
    Inv3 (processEvents rt es) := by
  induction es generalizing rt with
  | nil => exact h
  | cons e es ih =>
    exact ih (processEvent rt e) (Inv3_processEvent rt e h)

/-- C3: with `storeInUserSession` enabled and the session marker present
at activation, the PointerCorner and ScrollDepth detectors are never
attached and `onTrigger` is never called during that activation, over
every event sequence, while the visibility listener stays registered. -/
theorem session_marker_suppresses_detectors (o : Options) (h : Host) (es : List Event)
    (hs : o.storeInUserSession = true)
    (hmk : truthyStr (sessionGet h SESSION_STORAGE_CTA_KEY) = true) :
    (processEvents (mountEngine o h) es).host.calls = 0 ∧
    (processEvents (mountEngine o h) es).mmAttached = false ∧
    (processEvents (mountEngine o h) es).scAttached = false ∧
    (processEvents (mountEngine o h) es).visListeners ≠ [] := by
  have hinv := Inv3_processEvents _ es (Inv3_mount o h hs hmk)
  exact ⟨hinv.2.2.2.2.1, hinv.2.2.2.2.2.1, hinv.2.2.2.2.2.2.1, hinv.2.2.2.2.2.2.2⟩

theorem visDispatchOne_hidden (o : Options) (c : VisClosure) (h : Host) (r : ReactState)
    (hmo : o.triggerTabChange.mobile = true) (hde : o.triggerTabChange.desktop = true)
    (hh : h.hidden = true) :
    visDispatchOne o c (h, r) =
      ({ h with
          pending := h.pending ++ [(h.nextHandle, effFlashTitle o.triggerTabChange.title)]
          nextHandle := h.nextHandle + 1 },
       { r with timeoutId := some h.nextHandle }) := by
  unfold visDispatchOne
  simp [hmo, hde, hh]

theorem visDispatchOne_visible_some (o : Options) (c : VisClosure) (h : Host) (r : ReactState)
    (tid : Nat) (hmo : o.triggerTabChange.mobile = true) (hde : o.triggerTabChange.desktop = true)
    (hh : h.hidden = false) (ht : c.timeoutId = some tid) :
    visDispatchOne o c (h, r) =
      ({ h with
          pending := h.pending.filter (fun p => p.1 != tid)
          title := c.originalTitle },
       { r with timeoutId := none }) := by
  unfold visDispatchOne
  simp [hmo, hde, hh, ht]

theorem visDispatchOne_visible_none (o : Options) (c : VisClosure) (h : Host) (r : ReactState)
    (hmo : o.triggerTabChange.mobile = true) (hde : o.triggerTabChange.desktop = true)
    (hh : h.hidden = false) (ht : c.timeoutId = none) :
    visDispatchOne o c (h, r) = ({ h with title := c.originalTitle }, r) := by
  unfold visDispatchOne
  simp [hmo, hde, hh, ht]

theorem dispatchVisibility_singleton (rt : Runtime) (b : Bool) (c : VisClosure)
    (hl : rt.visListeners = [c]) :
    dispatchVisibility rt b =
      { rt with
        host := (visDispatchOne rt.opts c ({ rt.host with hidden := b }, rt.react)).1
        react := if rt.mounted then
            (visDispatchOne rt.opts c ({ rt.host with hidden := b }, rt.react)).2
          else rt.react } := by
  unfold dispatchVisibility
  rw [hl]
  simp [List.foldl_cons, List.foldl_nil]

theorem dispatchVisibility_singleton_mounted (rt : Runtime) (b : Bool) (c : VisClosure)
    (hl : rt.visListeners = [c]) (hm : rt.mounted = true) :
    dispatchVisibility rt b =
      { rt with
        host := (visDispatchOne rt.opts c ({ rt.host with hidden := b }, rt.react)).1
        react := (visDispatchOne rt.opts c ({ rt.host with hidden := b }, rt.react)).2 } := by
  rw [dispatchVisibility_singleton rt b c hl, hm]
  simp

theorem dispatchVisibility_hidden_facts (rt : Runtime)
    (hl : rt.visListeners = [⟨rt.react.timeoutId, rt.react.originalTitle⟩])
    (hm : rt.mounted = true) (hmo : rt.opts.triggerTabChange.mobile = true)
    (hde : rt.opts.triggerTabChange.desktop = true) :
    (dispatchVisibility rt true).host.pending =
      rt.host.pending ++ [(rt.host.nextHandle, effFlashTitle rt.opts.triggerTabChange.title)] ∧
    (dispatchVisibility rt true).host.title = rt.host.title ∧
    (dispatchVisibility rt true).react = { rt.react with timeoutId := some rt.host.nextHandle } := by
  rw [dispatchVisibility_singleton_mounted rt true _ hl hm]
  rw [visDispatchOne_hidden rt.opts _ _ _ hmo hde rfl]
  exact ⟨rfl, rfl, rfl⟩

theorem dispatchVisibility_visible_some_facts (rt : Runtime) (tid : Nat)
    (hl : rt.visListeners = [⟨rt.react.timeoutId, rt.react.originalTitle⟩])
    (hm : rt.mounted = true) (hmo : rt.opts.triggerTabChange.mobile = true)
    (hde : rt.opts.triggerTabChange.desktop = true)
    (hcid : rt.react.timeoutId = some tid) :
    (dispatchVisibility rt false).host.pending =
      rt.host.pending.filter (fun p => p.1 != tid) ∧
    (dispatchVisibility rt false).host.title = rt.react.originalTitle ∧
    (dispatchVisibility rt false).react = { rt.react with timeoutId := none } := by
  rw [dispatchVisibility_singleton_mounted rt false _ hl hm]
  rw [visDispatchOne_visible_some rt.opts _ _ _ tid hmo hde rfl hcid]
  exact ⟨rfl, rfl, rfl⟩

theorem dispatchVisibility_visible_none_facts (rt : Runtime)
    (hl : rt.visListeners = [⟨rt.react.timeoutId, rt.react.originalTitle⟩])
    (hm : rt.mounted = true) (hmo : rt.opts.triggerTabChange.mobile = true)
    (hde : rt.opts.triggerTabChange.desktop = true)
    (hcid : rt.react.timeoutId = none) :
    (dispatchVisibility rt false).host.pending = rt.host.pending ∧
    (dispatchVisibility rt false).host.title = rt.react.originalTitle ∧
    (dispatchVisibility rt false).react = rt.react := by
  rw [dispatchVisibility_singleton_mounted rt false _ hl hm]
  rw [visDispatchOne_visible_none rt.opts _ _ _ hmo hde rfl hcid]
  exact ⟨rfl, rfl, rfl⟩

theorem TabInv_vis_hidden (origT : String) (rt : Runtime)
    (h : TabInv origT rt) (hh : rt.host.hidden = false) :
    TabInv origT (processEvent rt (Event.visibility true)) := by
  obtain ⟨hm, hfix, htr, hcu, hmo, hde, hsat, hl, hot, hlen, hall, hvisb⟩ := h
  obtain ⟨hpe, hti, htid⟩ := hvisb hh
  show TabInv origT (flushEffects (dispatchVisibility rt true))
  obtain ⟨f1, f2, f3⟩ := dispatchVisibility_hidden_facts rt hl hm hmo hde
  obtain ⟨v1, v2, v3, v4, v5, v6, v7, v8, v9, v10, v11, v12, v13⟩ :=
    dispatchVisibility_pres rt true
  set rt1 := dispatchVisibility rt true with hrt1
  have hm1 : rt1.mounted = true := by rw [v8, hm]
  have htid1 : rt1.react.timeoutId = some rt.host.nextHandle := by rw [f3]
  have hot1 : rt1.react.originalTitle = rt.react.originalTitle := by rw [f3]
  have hnd1 : ¬ rt1.lastDeps = some rt1.react := by
    rw [v9, hfix, f3]
    intro hcon
    have h2 := congrArg ReactState.timeoutId (Option.some.inj hcon)
    rw [htid] at h2
    exact Option.noConfusion h2
  have hsat1 : alreadySatisfied rt1 = false := by
    rw [alreadySatisfied_dispatchVisibility]
    exact hsat
  have hcu1 : rt1.curHasCleanup = true := by rw [v13, hcu]
  have hpend1 : rt1.host.pending = [(rt.host.nextHandle, effFlashTitle rt.opts.triggerTabChange.title)] := by
    rw [f1, hpe, List.nil_append]
  obtain ⟨a1, a2, a3, a4, a5⟩ := flushEffects_run_att rt1 hm1 hnd1
  have hvl := flushEffects_run_unsat rt1 hm1 hnd1 hsat1
  rw [hcu1] at hvl
  simp only [if_true] at hvl
  have hlv1 : rt1.visListeners = [⟨rt.react.timeoutId, rt.react.originalTitle⟩] := by
    rw [v10, hl]
  rw [hlv1, List.dropLast_single, List.nil_append] at hvl
  have hti1 : rt1.host.title = origT := by rw [f2, hti]
  refine ⟨?_, ?_, ?_, ?_, ?_, ?_, ?_, ?_, ?_, ?_, ?_, ?_⟩
  · rw [flushEffects_mounted]
    exact hm1
  · exact flushEffects_fixed rt1 hm1
  · rw [flushEffects_hasTriggered, v5]
    exact htr
  · rw [a3, hsat1]
    rfl
  · rw [flushEffects_opts, v7]
    exact hmo
  · rw [flushEffects_opts, v7]
    exact hde
  · rw [alreadySatisfied_flushEffects]
    exact hsat1
  · rw [hvl, flushEffects_timeoutId, htid1]
    have ho : (flushEffects rt1).react.originalTitle = rt1.host.title := by
      rw [a4]
    rw [ho, hti1]
  · rw [a4]
    exact hti1
  · rw [flushEffects_host, hpend1]
    simp
  · intro p hp
    rw [flushEffects_host, hpend1] at hp
    rw [flushEffects_timeoutId, htid1]
    rw [List.mem_singleton] at hp
    rw [hp]
  · intro hcon
    rw [flushEffects_host, v4] at hcon
    exact absurd hcon (by simp)

theorem TabInv_vis_visible (origT : String) (rt : Runtime)
    (h : TabInv origT rt) (hh : rt.host.hidden = true) :
    TabInv origT (processEvent rt (Event.visibility false)) := by
  obtain ⟨hm, hfix, htr, hcu, hmo, hde, hsat, hl, hot, hlen, hall, hvisb⟩ := h
  show TabInv origT (flushEffects (dispatchVisibility rt false))
  obtain ⟨v1, v2, v3, v4, v5, v6, v7, v8, v9, v10, v11, v12, v13⟩ :=
    dispatchVisibility_pres rt false
  set rt1 := dispatchVisibility rt false with hrt1
  have hm1 : rt1.mounted = true := by rw [v8, hm]
  have hsat1 : alreadySatisfied rt1 = false := by
    rw [alreadySatisfied_dispatchVisibility]
    exact hsat
  have hcu1 : rt1.curHasCleanup = true := by rw [v13, hcu]
  have hlv1 : rt1.visListeners = [⟨rt.react.timeoutId, rt.react.originalTitle⟩] := by
    rw [v10, hl]
  cases hcid : rt.react.timeoutId with
  | none =>
    obtain ⟨f1, f2, f3⟩ := dispatchVisibility_visible_none_facts rt hl hm hmo hde hcid
    have hpe : rt.host.pending = [] := by
      rcases List.eq_nil_or_concat rt.host.pending with hnil | ⟨l, p, hcons⟩
      · exact hnil
      · exfalso
        have hmem : p ∈ rt.host.pending := by
          rw [hcons]
          simp
        have := hall p hmem
        rw [hcid] at this
        exact Option.noConfusion this
    have hfix1 : rt1.lastDeps = some rt1.react := by
      rw [v9, hfix, f3]
    rw [flushEffects_of_fixed rt1 hfix1]
    refine ⟨hm1, hfix1, by rw [f3]; exact htr, hcu1, by rw [v7]; exact hmo,
      by rw [v7]; exact hde, hsat1, by rw [hlv1, f3], by rw [f3]; exact hot,
      by rw [f1, hpe]; simp, ?_, ?_⟩
    · intro p hp
      rw [f1, hpe] at hp
      exact absurd hp (List.not_mem_nil p)
    · intro _
      refine ⟨by rw [f1, hpe], by rw [f2, hot], by rw [f3]; exact hcid⟩
  | some tid =>
    obtain ⟨f1, f2, f3⟩ := dispatchVisibility_visible_some_facts rt tid hl hm hmo hde hcid
    have hpf : rt1.host.pending = [] := by
      rw [f1]
      rw [List.filter_eq_nil_iff]
      intro p hp
      have := hall p hp
      rw [hcid] at this
      have hpt : p.1 = tid := (Option.some.inj this).symm
      simp [hpt]
    have hnd1 : ¬ rt1.lastDeps = some rt1.react := by
      rw [v9, hfix, f3]
      intro hcon
      have h2 := congrArg ReactState.timeoutId (Option.some.inj hcon)
      rw [hcid] at h2
      exact Option.noConfusion h2
    obtain ⟨a1, a2, a3, a4, a5⟩ := flushEffects_run_att rt1 hm1 hnd1
    have hvl := flushEffects_run_unsat rt1 hm1 hnd1 hsat1
    rw [hcu1] at hvl
    simp only [if_true] at hvl
    rw [hlv1, List.dropLast_single, List.nil_append] at hvl
    have htid1 : rt1.react.timeoutId = none := by rw [f3]
    have hti1 : rt1.host.title = origT := by rw [f2, hot]
    refine ⟨?_, ?_, ?_, ?_, ?_, ?_, ?_, ?_, ?_, ?_, ?_, ?_⟩
    · rw [flushEffects_mounted]
      exact hm1
    · exact flushEffects_fixed rt1 hm1
    · rw [flushEffects_hasTriggered, v5]
      exact htr
    · rw [a3, hsat1]
      rfl
    · rw [flushEffects_opts, v7]
      exact hmo
    · rw [flushEffects_opts, v7]
      exact hde
    · rw [alreadySatisfied_flushEffects]
      exact hsat1
    · rw [hvl, flushEffects_timeoutId, htid1]
      have ho : (flushEffects rt1).react.originalTitle = rt1.host.title := by
        rw [a4]
      rw [ho, hti1]
    · rw [a4]
      exact hti1
    · rw [flushEffects_host, hpf]
      simp
    · intro p hp
      rw [flushEffects_host, hpf] at hp
      exact absurd hp (List.not_mem_nil p)
    · intro _
      refine ⟨by rw [flushEffects_host, hpf], ?_, by rw [flushEffects_timeoutId, htid1]⟩
      have ho : (flushEffects rt1).host.title = rt1.host.title := by
        rw [flushEffects_host]
      rw [ho, hti1]

theorem TabInv_timer (origT : String) (rt : Runtime) (id : Nat) (h : TabInv origT rt) :
    TabInv origT (processEvent rt (Event.timer id)) := by
  obtain ⟨hm, hfix, htr, hcu, hmo, hde, hsat, hl, hot, hlen, hall, hvisb⟩ := h
  show TabInv origT (flushEffects (fireTimer rt id))
  cases hfind : rt.host.pending.find? (fun p => p.1 == id) with
  | none =>
    have hft : fireTimer rt id = rt := by
      unfold fireTimer
      rw [hfind]
    rw [hft, flushEffects_of_fixed rt hfix]
    exact ⟨hm, hfix, htr, hcu, hmo, hde, hsat, hl, hot, hlen, hall, hvisb⟩
  | some p =>
    have hmem : p ∈ rt.host.pending := List.mem_of_find?_eq_some hfind
    have hpid : p.1 = id := by
      have := List.find?_some hfind
      simpa using this
    have hhid : rt.host.hidden = true := by
      cases hhh : rt.host.hidden
      · exfalso
        have := (hvisb hhh).1
        rw [this] at hmem
        exact absurd hmem (List.not_mem_nil p)
      · rfl
    have hft : fireTimer rt id =
        { rt with host := { rt.host with
            title := p.2
            pending := rt.host.pending.filter (fun q => q.1 != id) } } := by
      unfold fireTimer
      rw [hfind]
    have hpf : rt.host.pending.filter (fun q => q.1 != id) = [] := by
      rw [List.filter_eq_nil_iff]
      intro q hq
      have h1 := hall q hq
      have h2 := hall p hmem
      rw [h1] at h2
      have hq1 : q.1 = p.1 := Option.some.inj h2
      rw [hq1, hpid]
      simp
    rw [hft]
    set rt1 : Runtime :=
      { rt with host := { rt.host with
          title := p.2
          pending := rt.host.pending.filter (fun q => q.1 != id) } } with hrt1
    have hfix1 : rt1.lastDeps = some rt1.react := hfix
    rw [flushEffects_of_fixed rt1 hfix1]
    refine ⟨hm, hfix1, htr, hcu, hmo, hde, hsat, hl, hot, ?_, ?_, ?_⟩
    · show (rt.host.pending.filter (fun q => q.1 != id)).length ≤ 1
      rw [hpf]
      simp
    · intro q hq
      have hq2 : q ∈ rt.host.pending.filter (fun q => q.1 != id) := hq
      rw [hpf] at hq2
      exact absurd hq2 (List.not_mem_nil q)
    · intro hcon
      have : rt.host.hidden = false := hcon
      rw [hhid] at this
      exact absurd this (by simp)

theorem processEvent_vis_hidden_after (rt : Runtime) (b : Bool) :
    (processEvent rt (Event.visibility b)).host.hidden = b := by
  show (flushEffects (dispatchVisibility rt b)).host.hidden = b
  rw [flushEffects_host]
  exact (dispatchVisibility_pres rt b).2.2.2.1

theorem processEvent_timer_hidden_after (rt : Runtime) (id : Nat) :
    (processEvent rt (Event.timer id)).host.hidden = rt.host.hidden := by
  show (flushEffects (fireTimer rt id)).host.hidden = rt.host.hidden
  rw [flushEffects_host]
  exact (fireTimer_char rt id).2.2.2.2.1

theorem TabInv_processEvents (origT : String) (es : List Event) :
    ∀ rt : Runtime, TabInv origT rt → Alternating rt.host.hidden es →
      TabInv origT (processEvents rt es) := by
  induction es with
  | nil =>
    intro rt h _
    exact h
  | cons e es ih =>
    intro rt h halt
    cases e with
    | visibility b =>
      obtain ⟨hb, hrest⟩ := halt
      cases hh : rt.host.hidden with
      | false =>
        rw [hh] at hb
        simp only [Bool.not_false] at hb
        subst hb
        refine ih _ (TabInv_vis_hidden origT rt h hh) ?_
        rw [processEvent_vis_hidden_after]
        exact hrest
      | true =>
        rw [hh] at hb
        simp only [Bool.not_true] at hb
        subst hb
        refine ih _ (TabInv_vis_visible origT rt h hh) ?_
        rw [processEvent_vis_hidden_after]
        exact hrest
    | timer id =>
      have hrest : Alternating rt.host.hidden es := halt
      refine ih _ (TabInv_timer origT rt id h) ?_
      rw [processEvent_timer_hidden_after]
      exact hrest
    | mouseMove x y => exact halt.elim
    | scroll a b c => exact halt.elim
    | setWidth w => exact halt.elim

theorem TabInv_mount (o : Options) (hst : Host)
    (hmo : o.triggerTabChange.mobile = true) (hde : o.triggerTabChange.desktop = true)
    (hsat : (o.storeInUserSession && truthyStr (sessionGet hst SESSION_STORAGE_CTA_KEY)) = false)
    (hp : hst.pending = []) (hh : hst.hidden = false) :
    TabInv hst.title (mountEngine o hst) := by
  unfold mountEngine
  set rt0 : Runtime :=
    { opts := o, host := { hst with calls := 0 },
      react := { hasTriggered := false, originalTitle := "", timeoutId := none },
      visListeners := [], mmAttached := false, scAttached := false,
      curHasCleanup := false, lastDeps := none, mounted := true } with hrt0
  have hm0 : rt0.mounted = true := rfl
  have hsat0 : alreadySatisfied rt0 = false := by
    unfold alreadySatisfied
    show (false || _) = false
    rw [Bool.false_or]
    exact hsat
  have hnd : ¬ rt0.lastDeps = some rt0.react := by
    rw [hrt0]
    simp
  obtain ⟨a1, a2, a3, a4, a5⟩ := flushEffects_run_att rt0 hm0 hnd
  have hvl := flushEffects_run_unsat rt0 hm0 hnd hsat0
  have hcu0 : rt0.curHasCleanup = false := rfl
  rw [hcu0] at hvl
  simp only [Bool.false_eq_true, if_false, List.nil_append] at hvl
  refine ⟨?_, ?_, ?_, ?_, ?_, ?_, ?_, ?_, ?_, ?_, ?_, ?_⟩
  · rw [flushEffects_mounted]
  · exact flushEffects_fixed rt0 hm0
  · rw [flushEffects_hasTriggered]
  · rw [a3, hsat0]
    rfl
  · rw [flushEffects_opts]
    exact hmo
  · rw [flushEffects_opts]
    exact hde
  · rw [alreadySatisfied_flushEffects]
    exact hsat0
  · rw [hvl, flushEffects_timeoutId]
    have ho : (flushEffects rt0).react.originalTitle = rt0.host.title := by
      rw [a4]
    rw [ho]
  · rw [a4]
  · rw [flushEffects_host]
    show ({ hst with calls := 0 } : Host).pending.length ≤ 1
    rw [show ({ hst with calls := 0 } : Host).pending = hst.pending from rfl, hp]
    simp
  · intro p hpm
    rw [flushEffects_host] at hpm
    have hpm2 : p ∈ hst.pending := hpm
    rw [hp] at hpm2
    exact absurd hpm2 (List.not_mem_nil p)
  · intro _
    refine ⟨?_, ?_, ?_⟩
    · rw [flushEffects_host]
      show hst.pending = []
      exact hp
    · rw [flushEffects_host]
    · rw [flushEffects_timeoutId]

/-- C6 (amended): scheduling a new delayed title change on a hide event
does not itself invalidate the previous pending timer — cancellation
happens only in the eligible visible branch; at most one title timer is
pending provided visibility events strictly alternate, only
visibility/timer events occur, tab-change is eligible at every width
(both flags enabled), and the gate stays unsatisfied. -/
theorem single_pending_timer_of_alternating (o : Options) (h : Host) (es : List Event)
    (hmo : o.triggerTabChange.mobile = true) (hde : o.triggerTabChange.desktop = true)
    (hsat : (o.storeInUserSession && truthyStr (sessionGet h SESSION_STORAGE_CTA_KEY)) = false)
    (hp : h.pending = []) (hh : h.hidden = false)
    (halt : Alternating false es) :
    (processEvents (mountEngine o h) es).host.pending.length ≤ 1 := by
  have hhid0 : (mountEngine o h).host.hidden = false := by
    unfold mountEngine
    rw [flushEffects_host]
    exact hh
  have hinv := TabInv_processEvents h.title es (mountEngine o h)
    (TabInv_mount o h hmo hde hsat hp hh) (by rw [hhid0]; exact halt)
  exact hinv.2.2.2.2.2.2.2.2.2.1

/-- C7 (amended): along any alternating visibility/timer trace with
tab-change eligible at every visibility event, whenever the document is
visible all pending title timers have been cancelled and the displayed
title equals the original captured at activation — in particular a
flash never survives an eligible return to visibility. -/
theorem visible_restores_title_of_alternating (o : Options) (h : Host) (es : List Event)
    (hmo : o.triggerTabChange.mobile = true) (hde : o.triggerTabChange.desktop = true)
    (hsat : (o.storeInUserSession && truthyStr (sessionGet h SESSION_STORAGE_CTA_KEY)) = false)
    (hp : h.pending = []) (hh : h.hidden = false)
    (halt : Alternating false es)
    (hvis : (processEvents (mountEngine o h) es).host.hidden = false) :
    (processEvents (mountEngine o h) es).host.title = h.title ∧
    (processEvents (mountEngine o h) es).host.pending = [] ∧
    (processEvents (mountEngine o h) es).react.timeoutId = none := by
  have hhid0 : (mountEngine o h).host.hidden = false := by
    unfold mountEngine
    rw [flushEffects_host]
    exact hh
  have hinv := TabInv_processEvents h.title es (mountEngine o h)
    (TabInv_mount o h hmo hde hsat hp hh) (by rw [hhid0]; exact halt)
  obtain ⟨hpend, htitle, htid⟩ := hinv.2.2.2.2.2.2.2.2.2.2.2 hvis
  exact ⟨htitle, hpend, htid⟩

/-- C6 witness: the amended invariant at a concrete hide/fire/show
trace. -/
theorem single_pending_timer_witness :
    (processEvents (mountEngine tabOpts demoHost)
      [Event.visibility true, Event.timer 1, Event.visibility false]).host.pending.length ≤ 1 := by
  have h1 : tabOpts.triggerTabChange.mobile = true := by decide
  have h2 : tabOpts.triggerTabChange.desktop = true := by decide
  have h3 : (tabOpts.storeInUserSession &&
      truthyStr (sessionGet demoHost SESSION_STORAGE_CTA_KEY)) = false := by decide
  have h4 : demoHost.pending = [] := by decide
  have h5 : demoHost.hidden = false := by decide
  exact single_pending_timer_of_alternating tabOpts demoHost
    [Event.visibility true, Event.timer 1, Event.visibility false]
    h1 h2 h3 h4 h5 ⟨rfl, rfl, trivial⟩

/-- C7 witness: a hide followed by an eligible show before the timer
fires leaves the original title and no pending timer. -/
theorem visible_restores_title_witness :
    (processEvents (mountEngine tabOpts demoHost)
      [Event.visibility true, Event.visibility false]).host.title = demoHost.title ∧
    (processEvents (mountEngine tabOpts demoHost)
      [Event.visibility true, Event.visibility false]).host.pending = [] ∧
    (processEvents (mountEngine tabOpts demoHost)
      [Event.visibility true, Event.visibility false]).react.timeoutId = none := by
  have h1 : tabOpts.triggerTabChange.mobile = true := by decide
  have h2 : tabOpts.triggerTabChange.desktop = true := by decide
  have h3 : (tabOpts.storeInUserSession &&
      truthyStr (sessionGet demoHost SESSION_STORAGE_CTA_KEY)) = false := by decide
  have h4 : demoHost.pending = [] := by decide
  have h5 : demoHost.hidden = false := by decide
  have h6 : (processEvents (mountEngine tabOpts demoHost)
      [Event.visibility true, Event.visibility false]).host.hidden = false := by decide
  exact visible_restores_title_of_alternating tabOpts demoHost
    [Event.visibility true, Event.visibility false]
    h1 h2 h3 h4 h5 ⟨rfl, rfl, trivial⟩ h6


/-- C2 (code bug): the claim demands that deactivation remove every
listener and that post-deactivation events have no side effect, also
when the gate was already satisfied at activation.  In that case the
effect's early return (line 80) returns no cleanup, so the visibility
listener stays attached after unmount: a later hide event schedules a
title change and the flash title is applied — with a further timer still
pending. -/
theorem deactivation_leak :
    c2run.mounted = false ∧ c2run.visListeners ≠ [] ∧
    c2run.host.title = "We miss you!" ∧ c2run.host.pending ≠ [] := by
  decide

/-- C6 counterexample: a hide on desktop schedules timer 1; the visible
event arrives at mobile width where tab-change is ineligible, so nothing
is cancelled or restored; a second hide schedules timer 2 — two pending
title timers exist at once, refuting the at-most-one-pending claim. -/
theorem stacked_timers_cex : c6run.host.pending.length = 2 := by
  decide

/-- C7 counterexample: visibility returns before the delay elapses, but
the eligibility check fails at the visible transition (mobile width,
`mobile` flag off), so the pending timer is not cancelled and the flash
title is applied while the page is visible — refuting the claim that a
visible transition always cancels and restores. -/
theorem flash_after_visible_cex :
    c7run.host.hidden = false ∧ c7run.host.title = "We miss you!" ∧
    c7run.react.originalTitle = "Original" := by
  decide

/-- C8 (code bug): `setOriginalTitle(document.title)` (line 47) runs on
every effect re-run, not once per instance as the comment "when
component mounts" intends: after the flash title is applied and a gate
fire re-runs the effect, `originalTitle` is overwritten with the flash
title ("We miss you!" instead of the captured "Original"). -/
theorem originalTitle_recaptured :
    demoHost.title = "Original" ∧
    c8run.react.originalTitle = "We miss you!" ∧ c8run.host.calls = 1 := by
  decide

/-- C4 counterexample: at width 500 with configured threshold 0 the code
classifies Mobile (`0` is falsy, so `t || 768` uses the default), while
the claim demands Desktop because `500 > 0`. -/
theorem classify_zero_threshold_cex :
    ¬ (isDesktopAt 500 0 = true ↔ (500 : ℚ) > 0) := by
  decide

/-- C4 (amended): for every nonzero configured threshold `t`, the
classification is Desktop iff `width > t` (Mobile otherwise, boundary
and degenerate widths inclusive on the mobile side), and the scroll
handler's `width <= threshold` test is its exact negation; a zero
(falsy) threshold instead falls back to the default 768. -/
theorem classify_desktop_iff (w t : ℚ) (ht : t ≠ 0) :
    (isDesktopAt w t = true ↔ w > t) ∧
    (decide (w ≤ effWidthThreshold t) = !isDesktopAt w t) := by
  constructor
  · simp [isDesktopAt, effWidthThreshold, ht]
  · simp [isDesktopAt, ← decide_not, not_lt]

/-- C4 witness: the amended classification at width 1024, threshold 768. -/
theorem classify_desktop_iff_witness :
    (isDesktopAt 1024 768 = true ↔ (1024 : ℚ) > 768) ∧
    (decide ((1024 : ℚ) ≤ effWidthThreshold 768) = !isDesktopAt 1024 768) :=
  classify_desktop_iff 1024 768 (by norm_num)

/-- C5 counterexample: on a non-scrollable document (`docHeight = 0`)
with `scrollTop = 100`, the claim demands no trigger, but the IEEE
division yields `+Infinity`, which passes the `>=` test, and the gate
fires (mobile width 400, mobile scroll enabled, threshold 30). -/
theorem scroll_nonscrollable_cex :
    ¬ (scrollWouldFire
        ⟨768, ⟨true, false, 30⟩, true, ⟨false, true, 200, "We miss you!"⟩, true⟩
        400 100 0 = false) := by
  decide

/-- C5 (amended): for every nonzero `percentThreshold`, on a scrollable
document (`docHeight ≠ 0`) the gate fires iff the classification-matched
flag holds and `scrollTop / docHeight * 100 ≥ percentThreshold`; on a
non-scrollable document no trigger occurs provided `scrollTop = 0`
(`0/0` is `NaN`).  A zero threshold instead falls back to 30, and a
positive `scrollTop` over a zero `docHeight` yields `+Infinity`, which
fires. -/
theorem scroll_fire_char (o : Options) (w st d : ℚ)
    (hp : o.triggerScroll.percentThreshold ≠ 0) :
    (d ≠ 0 →
      (scrollWouldFire o w st d = true ↔
        ((w ≤ effWidthThreshold o.mobileWidthThreshold ∧ o.triggerScroll.mobile = true) ∨
         (w > effWidthThreshold o.mobileWidthThreshold ∧ o.triggerScroll.desktop = true)) ∧
        st / d * 100 ≥ o.triggerScroll.percentThreshold)) ∧
    (d = 0 → st = 0 → scrollWouldFire o w st d = false) := by
  constructor
  · intro hd
    simp [scrollWouldFire, effPercentThreshold, hp, hd, not_le, and_comm]
  · intro hd hst
    simp [scrollWouldFire, hd, hst]

/-- C5 witness: the amended characterization at the default options with
width 400, scrollTop 140, docHeight 400 (35%). -/
theorem scroll_fire_char_witness :
    ((400 : ℚ) ≠ 0 →
      (scrollWouldFire defaultOptions 400 140 400 = true ↔
        (((400 : ℚ) ≤ effWidthThreshold defaultOptions.mobileWidthThreshold ∧
            defaultOptions.triggerScroll.mobile = true) ∨
         ((400 : ℚ) > effWidthThreshold defaultOptions.mobileWidthThreshold ∧
            defaultOptions.triggerScroll.desktop = true)) ∧
        (140 : ℚ) / 400 * 100 ≥ defaultOptions.triggerScroll.percentThreshold)) ∧
    ((400 : ℚ) = 0 → (140 : ℚ) = 0 → scrollWouldFire defaultOptions 400 140 400 = false) := by
  have hp : defaultOptions.triggerScroll.percentThreshold ≠ 0 := by decide
  exact scroll_fire_char defaultOptions 400 140 400 hp

/-- C3 witness: mounting on a host whose session store already holds the
marker. -/
theorem session_marker_suppresses_detectors_witness :
    (processEvents (mountEngine defaultOptions markedHost) []).host.calls = 0 ∧
    (processEvents (mountEngine defaultOptions markedHost) []).mmAttached = false ∧
    (processEvents (mountEngine defaultOptions markedHost) []).scAttached = false ∧
    (processEvents (mountEngine defaultOptions markedHost) []).visListeners ≠ [] := by
  have h1 : defaultOptions.storeInUserSession = true := by decide
  have h2 : truthyStr (sessionGet markedHost SESSION_STORAGE_CTA_KEY) = true := by decide
  exact session_marker_suppresses_detectors defaultOptions markedHost [] h1 h2

/-- C9 counterexample: a corner pointer event on desktop with a raising
`setItem` — `onTrigger` has already fired, and the handler propagates
the exception instead of containing it; there is no try/catch. -/
theorem setItem_exception_cex :
    handleMouseMoveB defaultOptions StoreB.throwing 1024 10 10 =
      (true, Except.error "setItem raised") := rfl

/-- C9 (amended): only an absent store is tolerated by the optional
chaining: then the handler completes without exception and `onTrigger`
fires exactly per the pointer condition, degrading to in-memory-only
gating; a raising get/set escapes the handler. -/
theorem absent_store_contained (o : Options) (w x y : ℚ) :
    (handleMouseMoveB o StoreB.absent w x y).2 = Except.ok StoreB.absent ∧
    (handleMouseMoveB o StoreB.absent w x y).1 = mouseMoveFires o w x y := by
  cases h : mouseMoveFires o w x y <;>
    simp [handleMouseMoveB, h, setItemB]

/-- C10: `options.triggerScroll` and `options.triggerTabChange` are
dereferenced without fallback: an explicitly supplied options object
lacking `triggerScroll` makes the effect body raise a `TypeError` at a
fresh activation, one lacking `triggerTabChange` makes the visibility
handler raise on its first event; the documented defaults apply only
when the whole `options` argument is omitted, in which case both code
paths are total. -/
theorem options_reads_not_total :
    (∀ o : RawOptions, o.triggerScroll = none →
      effectBodyReads o false = Except.error "TypeError: cannot read mobile of undefined") ∧
    (∀ (o : RawOptions) (w : ℚ), o.triggerTabChange = none →
      visibilityReads o w = Except.error "TypeError: cannot read desktop of undefined") ∧
    (∀ m : Bool, effectBodyReads (resolveOptions none) m = Except.ok ()) ∧
    (∀ w : ℚ, visibilityReads (resolveOptions none) w = Except.ok (isDesktopAt w 768)) := by
  refine ⟨?_, ?_, ?_, ?_⟩
  · intro o h
    simp [effectBodyReads, h]
  · intro o w h
    simp [visibilityReads, h]
  · intro m
    cases m <;> simp [effectBodyReads, resolveOptions, toRaw, defaultOptions]
  · intro w
    simp [visibilityReads, resolveOptions, toRaw, defaultOptions]

/-- C10 witness: the empty options object raises in both places. -/
theorem options_reads_not_total_witness :
    effectBodyReads ⟨none, none, none, none, none⟩ false =
      Except.error "TypeError: cannot read mobile of undefined" ∧
    visibilityReads ⟨none, none, none, none, none⟩ 500 =
      Except.error "TypeError: cannot read desktop of undefined" :=
  ⟨options_reads_not_total.1 ⟨none, none, none, none, none⟩ rfl,
   options_reads_not_total.2.1 ⟨none, none, none, none, none⟩ 500 rfl⟩

end UseDontLeave
